import Mathlib

/-!
Shallow embedding of `unified_planning/engines/mixins/sequential_simulator.py`
(`SequentialSimulatorMixin`), for checking the natural-language specification
of the sequential-simulator mixin against the code.

The mixin is an abstract class: its protected extension points
(the protected condition-check, unsafe-apply and goal-check methods)
raise `NotImplementedError` and are supplied by a concrete engine.  The
embedding therefore takes those extension points as a `SimulatorImpl` record
of functions, and models Python exceptions with `Except UPError`.

External collaborators that the mixin merely consumes (the expression
manager's `auto_promote`, the type system's `is_compatible`) are bundled in an
`Environment` record of functions.
-/

set_option autoImplicit false

namespace UP

/-- A type of the problem's type system; opaque to the mixin, which only calls
`is_compatible` on it (through `Environment`). -/
structure Ty where
  id : Nat
deriving DecidableEq, Repr

/-- An expression node (`up.model.FNode`); opaque to the mixin except for its
`type`, read as `p.type` in the parameter-compatibility check. -/
structure FNode where
  id : Nat
  type : Ty
deriving DecidableEq, Repr

/-- A declared action parameter (`up.model.Parameter`): the mixin reads only
its `type` (as `ap.type`). -/
structure Parameter where
  name : String
  type : Ty
deriving DecidableEq, Repr

/-- An action schema (`up.model.Action`): the mixin reads only its
`parameters` list. -/
structure Action where
  name : String
  parameters : List Parameter
deriving DecidableEq, Repr

/-- A grounded action (`up.plans.ActionInstance`): the mixin reads its
`action` and `actual_parameters`. -/
structure ActionInstance where
  action : Action
  actual_parameters : List FNode
deriving DecidableEq, Repr

/-- A state (`up.model.State`): fully opaque to the mixin, which only passes
it through to the extension points. -/
structure State where
  id : Nat
deriving DecidableEq, Repr

/-- A problem kind (`up.model.ProblemKind`): opaque, only passed to
`supports`. -/
structure ProblemKind where
  id : Nat
deriving DecidableEq, Repr

/-- The slice of `up.model.AbstractProblem` the constructor reads. -/
structure AbstractProblem where
  kind : ProblemKind
deriving DecidableEq, Repr

/-- A value acceptable as `up.model.Expression`: either already an expression
node (`FNode`) or a raw Python value to be promoted. -/
inductive Expression where
  | fnode (f : FNode)
  | raw (id : Nat)
deriving DecidableEq, Repr

/-- The `parameters` argument of the public methods, distinguishing the
single-expression form from the sequence form (Python's
`isinstance(parameters, Sequence)` dispatch). -/
inductive ParamsArg where
  | single (e : Expression)
  | seq (es : List Expression)
deriving DecidableEq, Repr

/-- The `action_or_action_instance` argument of the public methods
(Python's `Union[Action, ActionInstance]`, dispatched by `isinstance`). -/
inductive ActionOrInstance where
  | action (a : Action)
  | actionInstance (ai : ActionInstance)
deriving DecidableEq, Repr

/-- The exceptions the mixin raises or handles: `UPUsageError` and
`UPInvalidActionError` (from `unified_planning.exceptions`). -/
inductive UPError where
  | usageError (msg : String)
  | invalidActionError (msg : String)
deriving DecidableEq, Repr

/-- External collaborators consumed as capabilities: the type system's
compatibility check (`declared.is_compatible (value.type)`) and the promotion
of raw values into the expression system. -/
structure Environment where
  is_compatible : Ty → Ty → Bool
  promote_raw : Nat → FNode

/-- The extension points of the mixin: the protected methods that raise
`NotImplementedError` in `sequential_simulator.py` and are supplied by a
concrete engine (the protected condition-check, unsafe-apply and goal-check
methods). -/
structure SimulatorImpl where
  getUnsatisfiedConditionsImpl :
    State → Action → List FNode → Bool → Except UPError (List FNode)
  applyUnsafeImpl : State → Action → List FNode → Except UPError (Option State)
  getUnsatisfiedGoalsImpl : State → Bool → Except UPError (List FNode)

/-- Modelled from the spec: the expression manager's `auto_promote` lives
outside this module ("the expression/term representation ... is consumed as a
capability"); per §4.1 it promotes raw values "to the expression type system"
and leaves values already in it (`FNode`s) unchanged. -/
def auto_promote (env : Environment) : Expression → FNode
  | .fnode f => f
  | .raw v => env.promote_raw v

/-- The `params` computed by the schema branch of
`_handle_parameters_polymorphism` (lines 81-86): `None` becomes the empty
tuple, a `Sequence` is auto-promoted elementwise, a single expression is
wrapped and auto-promoted. -/
def params_of_arg (env : Environment) : Option ParamsArg → List FNode
  | none => []
  | some (.seq es) => es.map (auto_promote env)
  | some (.single e) => [auto_promote env e]

/-- The check of `_handle_parameters_polymorphism` lines 87-89:
`len(params) != len(act.parameters) or any(not ap.type.is_compatible(p.type)
for p, ap in zip(params, act.parameters))`. -/
def params_check_fails (env : Environment) (act : Action) (params : List FNode) : Bool :=
  params.length != act.parameters.length ||
    (params.zip act.parameters).any fun pa => ! env.is_compatible pa.2.type pa.1.type

/-- The `UPUsageError` message of line 72-74 (ActionInstance given together
with parameters). -/
def instance_params_msg (method_name : String) : String :=
  method_name ++ " method does not accept an ActionInstance and also the parameters."

/-- The `UPUsageError` message of lines 90-93 (parameters not compatible with
the action's parameters). -/
def incompatible_params_msg (method_name : String) : String :=
  "The parameters given to the " ++ method_name ++
    " method are not compatible with the given action's parameters."

/-- `SequentialSimulatorMixin._handle_parameters_polymorphism`
(lines 51-94). -/
def handle_parameters_polymorphism (env : Environment)
    (action_or_action_instance : ActionOrInstance)
    (parameters : Option ParamsArg) (method_name : String) :
    Except UPError (Action × List FNode) :=
  match action_or_action_instance with
  | .actionInstance ai =>
    match parameters with
    | some _ => .error (.usageError (instance_params_msg method_name))
    | none => .ok (ai.action, ai.actual_parameters)
  | .action act =>
    let params := params_of_arg env parameters
    if params_check_fails env act params then
      .error (.usageError (incompatible_params_msg method_name))
    else
      .ok (act, params)

/-- `SequentialSimulatorMixin.get_unsatisfied_conditions` (lines 157-186):
resolve the polymorphic arguments, then delegate to the extension point. -/
def get_unsatisfied_conditions (sim : SimulatorImpl) (env : Environment)
    (state : State) (action_or_action_instance : ActionOrInstance)
    (parameters : Option ParamsArg) (early_termination : Bool) :
    Except UPError (List FNode) :=
  match handle_parameters_polymorphism env action_or_action_instance parameters
      "get_unsatisfied_conditions" with
  | .error e => .error e
  | .ok (act, params) =>
    sim.getUnsatisfiedConditionsImpl state act params early_termination

/-- A resolved parameter tuple passed back as the `parameters` argument of a
public method, as `_is_applicable` does with the tuple it received: a tuple of
`FNode`s is a `Sequence` of expressions. -/
def fnode_args (params : List FNode) : Option ParamsArg :=
  some (.seq (params.map Expression.fnode))

/-- `SequentialSimulatorMixin._is_applicable` (lines 135-155): applicable iff
the public `get_unsatisfied_conditions` (called with the resolved tuple and
`early_termination=True`) returns an empty list; `UPInvalidActionError` is
caught and mapped to `False`; any other exception propagates. -/
def is_applicable_m (sim : SimulatorImpl) (env : Environment) (state : State)
    (action : Action) (parameters : List FNode) : Except UPError Bool :=
  match get_unsatisfied_conditions sim env state (.action action)
      (fnode_args parameters) true with
  | .ok l => .ok (l.length == 0)
  | .error (.invalidActionError _) => .ok false
  | .error e => .error e

/-- `SequentialSimulatorMixin.is_applicable` (lines 109-133). -/
def is_applicable (sim : SimulatorImpl) (env : Environment) (state : State)
    (action_or_action_instance : ActionOrInstance)
    (parameters : Option ParamsArg) : Except UPError Bool :=
  match handle_parameters_polymorphism env action_or_action_instance parameters
      "is_applicable" with
  | .error e => .error e
  | .ok (act, params) => is_applicable_m sim env state act params

/-- Modelled from the spec: `_apply` is a `NotImplementedError` extension
point of the mixin (lines 228-237), its concrete body is not under `src/`.
Spec §4.3: "`apply(state, action)`: first checks applicability via 4.2; if
not applicable, returns 'no successor' (a `None`-like absence value, not an
error). If applicable, delegates to the unsafe path." -/
def apply_m (sim : SimulatorImpl) (env : Environment) (state : State)
    (action : Action) (parameters : List FNode) : Except UPError (Option State) :=
  match is_applicable_m sim env state action parameters with
  | .error e => .error e
  | .ok false => .ok none
  | .ok true => sim.applyUnsafeImpl state action parameters

/-- `SequentialSimulatorMixin.apply` (lines 200-226). -/
def apply (sim : SimulatorImpl) (env : Environment) (state : State)
    (action_or_action_instance : ActionOrInstance)
    (parameters : Option ParamsArg) : Except UPError (Option State) :=
  match handle_parameters_polymorphism env action_or_action_instance parameters
      "apply" with
  | .error e => .error e
  | .ok (act, params) => apply_m sim env state act params

/-- The public unsafe-apply method of the mixin (lines 239-265): resolve the
polymorphic arguments, then delegate to the extension point. -/
def apply_unsafe_method (sim : SimulatorImpl) (env : Environment) (state : State)
    (action_or_action_instance : ActionOrInstance)
    (parameters : Option ParamsArg) : Except UPError (Option State) :=
  match handle_parameters_polymorphism env action_or_action_instance parameters
      "apply_unsafe" with
  | .error e => .error e
  | .ok (act, params) => sim.applyUnsafeImpl state act params

/-- `SequentialSimulatorMixin.get_unsatisfied_goals` (lines 318-329):
delegates to the extension point. -/
def get_unsatisfied_goals (sim : SimulatorImpl) (state : State)
    (early_termination : Bool) : Except UPError (List FNode) :=
  sim.getUnsatisfiedGoalsImpl state early_termination

/-- `SequentialSimulatorMixin._is_goal` (lines 312-316, also the body of
`is_goal`): goal iff the unsatisfied-goals list with early termination is
empty; no exception is caught. -/
def is_goal (sim : SimulatorImpl) (state : State) : Except UPError Bool :=
  match get_unsatisfied_goals sim state true with
  | .error e => .error e
  | .ok l => .ok (l.length == 0)

/-- The engine-level attributes the constructor reads (`self.name`,
`self.skip_checks`, `self.error_on_failed_checks`, `type(self).supports`),
defined by the `Engine` class outside this module. -/
structure InitFlags where
  name : String
  skip_checks : Bool
  error_on_failed_checks : Bool
  supports : ProblemKind → Bool

/-- The message of `SequentialSimulatorMixin.__init__` line 45. -/
def unsupported_msg (name : String) : String :=
  "We cannot establish whether " ++ name ++ " is able to handle this problem!"

/-- `SequentialSimulatorMixin.__init__` (lines 31-49): if checks are not
skipped and the problem kind is unsupported, raise `UPUsageError` when
`error_on_failed_checks` is set, otherwise emit a warning.  The result is the
list of warnings emitted on successful construction. -/
def sequential_simulator_init (eng : InitFlags) (problem : AbstractProblem) :
    Except UPError (List String) :=
  if !eng.skip_checks && !eng.supports problem.kind then
    if eng.error_on_failed_checks then
      .error (.usageError (unsupported_msg eng.name))
    else
      .ok [unsupported_msg eng.name]
  else
    .ok []

/-! ## Basic lemmas about argument resolution -/

@[simp]
theorem auto_promote_fnode (env : Environment) (f : FNode) :
    auto_promote env (.fnode f) = f := rfl

@[simp]
theorem params_of_arg_fnode_args (env : Environment) (ps : List FNode) :
    params_of_arg env (fnode_args ps) = ps := by
  simp [params_of_arg, fnode_args, Function.comp_def]

theorem handle_action_eq (env : Environment) (act : Action)
    (p : Option ParamsArg) (m : String) :
    handle_parameters_polymorphism env (.action act) p m =
      if params_check_fails env act (params_of_arg env p) then
        .error (.usageError (incompatible_params_msg m))
      else
        .ok (act, params_of_arg env p) := rfl

theorem get_unsatisfied_conditions_action (sim : SimulatorImpl)
    (env : Environment) (s : State) (act : Action) (p : Option ParamsArg)
    (et : Bool) :
    get_unsatisfied_conditions sim env s (.action act) p et =
      if params_check_fails env act (params_of_arg env p) then
        .error (.usageError (incompatible_params_msg "get_unsatisfied_conditions"))
      else
        sim.getUnsatisfiedConditionsImpl s act (params_of_arg env p) et := by
  unfold get_unsatisfied_conditions
  rw [handle_action_eq]
  cases hc : params_check_fails env act (params_of_arg env p) <;> simp [hc]

theorem is_applicable_action (sim : SimulatorImpl) (env : Environment)
    (s : State) (act : Action) (p : Option ParamsArg) :
    is_applicable sim env s (.action act) p =
      if params_check_fails env act (params_of_arg env p) then
        .error (.usageError (incompatible_params_msg "is_applicable"))
      else
        is_applicable_m sim env s act (params_of_arg env p) := by
  unfold is_applicable
  rw [handle_action_eq]
  cases hc : params_check_fails env act (params_of_arg env p) <;> simp [hc]

theorem apply_action (sim : SimulatorImpl) (env : Environment)
    (s : State) (act : Action) (p : Option ParamsArg) :
    apply sim env s (.action act) p =
      if params_check_fails env act (params_of_arg env p) then
        .error (.usageError (incompatible_params_msg "apply"))
      else
        apply_m sim env s act (params_of_arg env p) := by
  unfold apply
  rw [handle_action_eq]
  cases hc : params_check_fails env act (params_of_arg env p) <;> simp [hc]

theorem apply_unsafe_action (sim : SimulatorImpl) (env : Environment)
    (s : State) (act : Action) (p : Option ParamsArg) :
    apply_unsafe_method sim env s (.action act) p =
      if params_check_fails env act (params_of_arg env p) then
        .error (.usageError (incompatible_params_msg "apply_unsafe"))
      else
        sim.applyUnsafeImpl s act (params_of_arg env p) := by
  unfold apply_unsafe_method
  rw [handle_action_eq]
  cases hc : params_check_fails env act (params_of_arg env p) <;> simp [hc]

theorem is_applicable_m_eq (sim : SimulatorImpl) (env : Environment)
    (s : State) (act : Action) (ps : List FNode)
    (h : params_check_fails env act ps = false) :
    is_applicable_m sim env s act ps =
      match sim.getUnsatisfiedConditionsImpl s act ps true with
      | .ok l => .ok (l.length == 0)
      | .error (.invalidActionError _) => .ok false
      | .error e => .error e := by
  unfold is_applicable_m
  rw [get_unsatisfied_conditions_action]
  simp [h]

/-! ## Concrete objects used as witnesses and counterexamples -/

def ty0 : Ty := ⟨0⟩

def env0 : Environment := ⟨fun _ _ => true, fun n => ⟨n, ty0⟩⟩

def st0 : State := ⟨0⟩

/-- An action with no parameters. -/
def act0 : Action := ⟨"a0", []⟩

/-- An action with one parameter of type `ty0`. -/
def act1 : Action := ⟨"a1", [⟨"x", ty0⟩]⟩

/-- An implementation whose conditions are always satisfied but whose unsafe
application reports conflicting effects (returns `none`), as the contract of
`apply_unsafe_method` allows. -/
def sim_conflict : SimulatorImpl :=
  ⟨fun _ _ _ _ => .ok [], fun _ _ _ => .ok none, fun _ _ => .ok []⟩

/-- An implementation whose condition check always raises
`UPInvalidActionError`. -/
def sim_invalid : SimulatorImpl :=
  ⟨fun _ _ _ _ => .error (.invalidActionError "bad"),
   fun _ _ _ => .ok (some ⟨1⟩), fun _ _ => .ok []⟩

/-! ## Claims -/

/-- Claim C1: for every state `s`, action `a` and parameter tuple `p` (given
in either of the schema forms the public API accepts), `is_applicable`
returns `True` iff `get_unsatisfied_conditions` with `early_termination=True`
returns the empty list, and when the latter raises `UPInvalidActionError`,
`is_applicable` returns `False` instead of propagating it. -/
theorem C1_is_applicable_iff_no_unsatisfied_conditions (sim : SimulatorImpl)
    (env : Environment) (s : State) (a : Action) (p : Option ParamsArg) :
    (is_applicable sim env s (.action a) p = .ok true ↔
      get_unsatisfied_conditions sim env s (.action a) p true = .ok []) ∧
    (∀ m, get_unsatisfied_conditions sim env s (.action a) p true =
        .error (.invalidActionError m) →
      is_applicable sim env s (.action a) p = .ok false) := by
  rw [is_applicable_action, get_unsatisfied_conditions_action]
  cases hc : params_check_fails env a (params_of_arg env p)
  · rw [if_neg (by simp), if_neg (by simp)]
    rw [is_applicable_m_eq sim env s a (params_of_arg env p) hc]
    cases h2 : sim.getUnsatisfiedConditionsImpl s a (params_of_arg env p) true with
    | ok l => simp [List.length_eq_zero]
    | error e => cases e <;> simp
  · simp

/-- Witness for C1: a concrete run in which `get_unsatisfied_conditions`
raises `UPInvalidActionError` and `is_applicable` returns `False`. -/
theorem C1_witness :
    get_unsatisfied_conditions sim_invalid env0 st0 (.action act0) none true =
      .error (.invalidActionError "bad") ∧
    is_applicable sim_invalid env0 st0 (.action act0) none = .ok false :=
  ⟨rfl, (C1_is_applicable_iff_no_unsatisfied_conditions sim_invalid env0 st0
    act0 none).2 "bad" rfl⟩

/-! ## Instance-form resolution lemmas -/

@[simp]
theorem handle_instance_none (env : Environment) (ai : ActionInstance)
    (m : String) :
    handle_parameters_polymorphism env (.actionInstance ai) none m =
      .ok (ai.action, ai.actual_parameters) := rfl

@[simp]
theorem handle_instance_some (env : Environment) (ai : ActionInstance)
    (pa : ParamsArg) (m : String) :
    handle_parameters_polymorphism env (.actionInstance ai) (some pa) m =
      .error (.usageError (instance_params_msg m)) := rfl

theorem is_applicable_instance (sim : SimulatorImpl) (env : Environment)
    (s : State) (ai : ActionInstance) :
    is_applicable sim env s (.actionInstance ai) none =
      is_applicable_m sim env s ai.action ai.actual_parameters := rfl

theorem get_unsatisfied_conditions_instance (sim : SimulatorImpl)
    (env : Environment) (s : State) (ai : ActionInstance) (et : Bool) :
    get_unsatisfied_conditions sim env s (.actionInstance ai) none et =
      sim.getUnsatisfiedConditionsImpl s ai.action ai.actual_parameters et := rfl

theorem apply_instance (sim : SimulatorImpl) (env : Environment)
    (s : State) (ai : ActionInstance) :
    apply sim env s (.actionInstance ai) none =
      apply_m sim env s ai.action ai.actual_parameters := rfl

theorem apply_unsafe_instance (sim : SimulatorImpl) (env : Environment)
    (s : State) (ai : ActionInstance) :
    apply_unsafe_method sim env s (.actionInstance ai) none =
      sim.applyUnsafeImpl s ai.action ai.actual_parameters := rfl

theorem is_applicable_instance_some (sim : SimulatorImpl) (env : Environment)
    (s : State) (ai : ActionInstance) (pa : ParamsArg) :
    is_applicable sim env s (.actionInstance ai) (some pa) =
      .error (.usageError (instance_params_msg "is_applicable")) := rfl

/-- The behavior of the spec-modelled `_apply` against `_is_applicable`:
`None` when not applicable, the unsafe application otherwise. -/
theorem apply_m_spec (sim : SimulatorImpl) (env : Environment) (s : State)
    (act : Action) (ps : List FNode) :
    (is_applicable_m sim env s act ps = .ok false →
      apply_m sim env s act ps = .ok none) ∧
    (is_applicable_m sim env s act ps = .ok true →
      apply_m sim env s act ps = sim.applyUnsafeImpl s act ps) := by
  cases h : is_applicable_m sim env s act ps with
  | ok b => cases b <;> simp [apply_m, h]
  | error e => simp [apply_m, h]

/-- Claim C2 counterexample: with an implementation whose conditions are all
satisfied but whose unsafe application reports conflicting effects (as its
contract allows), `apply` returns the absent value while `is_applicable` is
`True`, so "`apply` returns `None` iff `is_applicable` is false" fails. -/
theorem C2_counterexample :
    is_applicable sim_conflict env0 st0 (.action act0) none = .ok true ∧
    apply sim_conflict env0 st0 (.action act0) none = .ok none :=
  ⟨rfl, rfl⟩

/-- Claim C2 (amended): `apply` returns the absent value whenever the action
is not applicable, and when the action is applicable it returns exactly the
result of the unsafe path (which may itself be the absent value on
conflicting effects). -/
theorem C2_apply_absent_and_delegation (sim : SimulatorImpl)
    (env : Environment) (s : State) (aoi : ActionOrInstance)
    (p : Option ParamsArg) :
    (is_applicable sim env s aoi p = .ok false →
      apply sim env s aoi p = .ok none) ∧
    (is_applicable sim env s aoi p = .ok true →
      apply sim env s aoi p = apply_unsafe_method sim env s aoi p) := by
  cases aoi with
  | actionInstance ai =>
    cases p with
    | none =>
      rw [is_applicable_instance, apply_instance, apply_unsafe_instance]
      exact apply_m_spec sim env s ai.action ai.actual_parameters
    | some pa =>
      rw [is_applicable_instance_some]
      constructor <;> intro h <;> simp at h
  | action act =>
    rw [is_applicable_action, apply_action, apply_unsafe_action]
    cases hc : params_check_fails env act (params_of_arg env p)
    · simp only [Bool.false_eq_true, if_false]
      exact apply_m_spec sim env s act (params_of_arg env p)
    · constructor <;> intro h <;> simp at h

/-- Witness for C2 (amended): a concrete inapplicable action for which
`apply` is absent, and a concrete applicable action for which `apply` equals
`apply_unsafe_method`. -/
theorem C2_witness :
    (is_applicable sim_invalid env0 st0 (.actionInstance ⟨act0, []⟩) none
        = .ok false ∧
      apply sim_invalid env0 st0 (.actionInstance ⟨act0, []⟩) none = .ok none) ∧
    (is_applicable sim_conflict env0 st0 (.action act0) none = .ok true ∧
      apply sim_conflict env0 st0 (.action act0) none =
        apply_unsafe_method sim_conflict env0 st0 (.action act0) none) :=
  ⟨⟨rfl, (C2_apply_absent_and_delegation sim_invalid env0 st0
      (.actionInstance ⟨act0, []⟩) none).1 rfl⟩,
   ⟨rfl, (C2_apply_absent_and_delegation sim_conflict env0 st0
      (.action act0) none).2 rfl⟩⟩

/-- Claim C3: every public method given an `ActionInstance` together with a
non-`None` `parameters` argument raises `UPUsageError`. -/
theorem C3_instance_with_parameters_usage_error (sim : SimulatorImpl)
    (env : Environment) (s : State) (ai : ActionInstance) (pa : ParamsArg)
    (et : Bool) :
    is_applicable sim env s (.actionInstance ai) (some pa) =
      .error (.usageError (instance_params_msg "is_applicable")) ∧
    get_unsatisfied_conditions sim env s (.actionInstance ai) (some pa) et =
      .error (.usageError (instance_params_msg "get_unsatisfied_conditions")) ∧
    apply sim env s (.actionInstance ai) (some pa) =
      .error (.usageError (instance_params_msg "apply")) ∧
    apply_unsafe_method sim env s (.actionInstance ai) (some pa) =
      .error (.usageError (instance_params_msg "apply_unsafe")) :=
  ⟨rfl, rfl, rfl, rfl⟩

/-- Claim C4: when a schema is supplied, the given parameters are
auto-promoted; if their count differs from the schema's declared count or any
promoted parameter's type is not compatible with the corresponding declared
type, the resolution raises `UPUsageError`; on success it returns the schema
paired with the ordered tuple of promoted parameters. -/
theorem C4_schema_promotion_and_check (env : Environment) (act : Action)
    (p : Option ParamsArg) (m : String) :
    ((params_of_arg env p).length = act.parameters.length ∧
      (∀ pa ∈ (params_of_arg env p).zip act.parameters,
        env.is_compatible pa.2.type pa.1.type = true) →
      handle_parameters_polymorphism env (.action act) p m =
        .ok (act, params_of_arg env p)) ∧
    ((params_of_arg env p).length ≠ act.parameters.length ∨
      (∃ pa ∈ (params_of_arg env p).zip act.parameters,
        env.is_compatible pa.2.type pa.1.type = false) →
      handle_parameters_polymorphism env (.action act) p m =
        .error (.usageError (incompatible_params_msg m))) := by
  constructor
  · rintro ⟨hlen, hcomp⟩
    have hc : params_check_fails env act (params_of_arg env p) = false := by
      simp [params_check_fails, hlen]
      intro f pr hmem
      exact hcomp ⟨f, pr⟩ hmem
    rw [handle_action_eq, hc]
    simp
  · intro h
    have hc : params_check_fails env act (params_of_arg env p) = true := by
      rcases h with hlen | ⟨pa, hmem, hcomp⟩
      · simp [params_check_fails, hlen]
      · simp only [params_check_fails, Bool.or_eq_true, List.any_eq_true]
        exact Or.inr ⟨pa, hmem, by simp [hcomp]⟩
    rw [handle_action_eq, hc]
    simp

/-- Witness for C4: a concrete successful resolution (no parameters for a
parameterless schema) and a concrete arity-mismatch failure (no parameters
for a one-parameter schema). -/
theorem C4_witness :
    handle_parameters_polymorphism env0 (.action act0) none "apply" =
      .ok (act0, []) ∧
    handle_parameters_polymorphism env0 (.action act1) none "apply" =
      .error (.usageError (incompatible_params_msg "apply")) :=
  ⟨(C4_schema_promotion_and_check env0 act0 none "apply").1
      ⟨rfl, by simp [params_of_arg]⟩,
   (C4_schema_promotion_and_check env0 act1 none "apply").2
      (Or.inl (by decide))⟩

theorem params_check_fails_eq_false (env : Environment) (act : Action)
    (ps : List FNode) (hlen : ps.length = act.parameters.length)
    (hcomp : ∀ pa ∈ ps.zip act.parameters,
      env.is_compatible pa.2.type pa.1.type = true) :
    params_check_fails env act ps = false := by
  simp [params_check_fails, hlen]
  intro f pr hmem
  exact hcomp ⟨f, pr⟩ hmem

/-- A well-formed grounded instance (the data-model invariant: parameter
count matches the schema and every bound value's type is compatible with its
declared type). -/
def well_grounded (env : Environment) (ai : ActionInstance) : Prop :=
  ai.actual_parameters.length = ai.action.parameters.length ∧
    ∀ pa ∈ ai.actual_parameters.zip ai.action.parameters,
      env.is_compatible pa.2.type pa.1.type = true

/-- Claim C5: every public action-taking entry point resolves its arguments
through the same grounding resolution, so calling it with a (well-formed)
grounded `ActionInstance` gives the same result as calling it with the
instance's schema and its actual parameter tuple. -/
theorem C5_instance_schema_equivalence (sim : SimulatorImpl)
    (env : Environment) (s : State) (ai : ActionInstance) (et : Bool)
    (h : well_grounded env ai) :
    is_applicable sim env s (.actionInstance ai) none =
      is_applicable sim env s (.action ai.action)
        (fnode_args ai.actual_parameters) ∧
    get_unsatisfied_conditions sim env s (.actionInstance ai) none et =
      get_unsatisfied_conditions sim env s (.action ai.action)
        (fnode_args ai.actual_parameters) et ∧
    apply sim env s (.actionInstance ai) none =
      apply sim env s (.action ai.action)
        (fnode_args ai.actual_parameters) ∧
    apply_unsafe_method sim env s (.actionInstance ai) none =
      apply_unsafe_method sim env s (.action ai.action)
        (fnode_args ai.actual_parameters) := by
  have hc : params_check_fails env ai.action ai.actual_parameters = false :=
    params_check_fails_eq_false env ai.action ai.actual_parameters h.1 h.2
  refine ⟨?_, ?_, ?_, ?_⟩
  · rw [is_applicable_instance, is_applicable_action]
    simp [hc]
  · rw [get_unsatisfied_conditions_instance, get_unsatisfied_conditions_action]
    simp [hc]
  · rw [apply_instance, apply_action]
    simp [hc]
  · rw [apply_unsafe_instance, apply_unsafe_action]
    simp [hc]

/-- Witness for C5: a concrete well-formed instance on which the equivalence
is instantiated. -/
theorem C5_witness :
    well_grounded env0 ⟨act1, [⟨7, ty0⟩]⟩ ∧
    is_applicable sim_conflict env0 st0 (.actionInstance ⟨act1, [⟨7, ty0⟩]⟩) none =
      is_applicable sim_conflict env0 st0 (.action act1)
        (fnode_args [⟨7, ty0⟩]) :=
  ⟨by constructor <;> decide,
   (C5_instance_schema_equivalence sim_conflict env0 st0 ⟨act1, [⟨7, ty0⟩]⟩
      true (by constructor <;> decide)).1⟩

/-- Claim C6: `is_goal` returns `True` iff `get_unsatisfied_goals` with
`early_termination=True` returns the empty list. -/
theorem C6_is_goal_iff_no_unsatisfied_goals (sim : SimulatorImpl) (s : State) :
    is_goal sim s = .ok true ↔ get_unsatisfied_goals sim s true = .ok [] := by
  unfold is_goal
  cases h : get_unsatisfied_goals sim s true with
  | ok l => simp [List.length_eq_zero]
  | error e => simp

/-- An implementation whose condition check always raises `UPUsageError`. -/
def sim_usage : SimulatorImpl :=
  ⟨fun _ _ _ _ => .error (.usageError "boom"),
   fun _ _ _ => .ok none, fun _ _ => .ok []⟩

/-- Claim C7: `UPUsageError` is never recovered internally (it propagates out
of `is_applicable` and `apply`, both from grounding resolution and from the
underlying condition check), while `UPInvalidActionError` is recovered by
`is_applicable`/`apply` and propagated unchanged by
`get_unsatisfied_conditions` when called directly. -/
theorem C7_usage_error_never_recovered (sim : SimulatorImpl)
    (env : Environment) (s : State) :
    (∀ ai pa,
      is_applicable sim env s (.actionInstance ai) (some pa) =
        .error (.usageError (instance_params_msg "is_applicable")) ∧
      apply sim env s (.actionInstance ai) (some pa) =
        .error (.usageError (instance_params_msg "apply"))) ∧
    (∀ act ps m, params_check_fails env act ps = false →
      sim.getUnsatisfiedConditionsImpl s act ps true =
        .error (.invalidActionError m) →
      is_applicable sim env s (.action act) (fnode_args ps) = .ok false ∧
      apply sim env s (.action act) (fnode_args ps) = .ok none) ∧
    (∀ act ps m, params_check_fails env act ps = false →
      sim.getUnsatisfiedConditionsImpl s act ps true =
        .error (.usageError m) →
      is_applicable sim env s (.action act) (fnode_args ps) =
        .error (.usageError m)) ∧
    (∀ act ps et m, params_check_fails env act ps = false →
      sim.getUnsatisfiedConditionsImpl s act ps et =
        .error (.invalidActionError m) →
      get_unsatisfied_conditions sim env s (.action act) (fnode_args ps) et =
        .error (.invalidActionError m)) := by
  refine ⟨fun ai pa => ⟨rfl, rfl⟩, ?_, ?_, ?_⟩
  · intro act ps m hc himpl
    have happ : is_applicable_m sim env s act ps = .ok false := by
      rw [is_applicable_m_eq sim env s act ps hc, himpl]
    constructor
    · rw [is_applicable_action]
      simp [hc, happ]
    · rw [apply_action]
      simp only [params_of_arg_fnode_args, hc, Bool.false_eq_true, if_false]
      exact (apply_m_spec sim env s act ps).1 happ
  · intro act ps m hc himpl
    rw [is_applicable_action]
    simp only [params_of_arg_fnode_args, hc, Bool.false_eq_true, if_false]
    rw [is_applicable_m_eq sim env s act ps hc, himpl]
  · intro act ps et m hc himpl
    rw [get_unsatisfied_conditions_action]
    simp only [params_of_arg_fnode_args, hc, Bool.false_eq_true, if_false]
    exact himpl

/-- Witness for C7: concrete runs in which `UPInvalidActionError` is
recovered by `is_applicable`/`apply`, an underlying `UPUsageError` propagates
out of `is_applicable`, and a direct `get_unsatisfied_conditions` call
surfaces `UPInvalidActionError` unchanged. -/
theorem C7_witness :
    (is_applicable sim_invalid env0 st0 (.action act0) (fnode_args []) =
        .ok false ∧
      apply sim_invalid env0 st0 (.action act0) (fnode_args []) = .ok none) ∧
    is_applicable sim_usage env0 st0 (.action act0) (fnode_args []) =
      .error (.usageError "boom") ∧
    get_unsatisfied_conditions sim_invalid env0 st0 (.action act0)
        (fnode_args []) false = .error (.invalidActionError "bad") :=
  ⟨(C7_usage_error_never_recovered sim_invalid env0 st0).2.1 act0 [] "bad"
      rfl rfl,
   (C7_usage_error_never_recovered sim_usage env0 st0).2.2.1 act0 [] "boom"
      rfl rfl,
   (C7_usage_error_never_recovered sim_invalid env0 st0).2.2.2 act0 [] false
      "bad" rfl rfl⟩

/-- Claim C8 counterexample: a pre-grounded instance whose actual parameters
do not match the schema's arity (one declared parameter, none bound) makes
the public `is_applicable` raise `UPUsageError` after all — `_is_applicable`
re-enters the public `get_unsatisfied_conditions` with the resolved tuple,
and that second resolution performs the arity/compatibility check.  So "a
pre-grounded instance with mismatched parameters never raises UsageError at
the public entry point" is false. -/
theorem C8_counterexample :
    is_applicable sim_conflict env0 st0 (.actionInstance ⟨act1, []⟩) none =
      .error (.usageError (incompatible_params_msg "get_unsatisfied_conditions")) :=
  rfl

/-- Claim C8 (amended): grounding resolution returns a pre-grounded
instance's action and actual parameters without any arity or
type-compatibility check, so `get_unsatisfied_conditions` and `apply_unsafe_method`
pass even a malformed instance straight to the underlying implementation and
never raise `UPUsageError` from their entry-point resolution
(`is_applicable` and `apply`, by contrast, re-resolve the tuple through
`get_unsatisfied_conditions` internally and can raise `UPUsageError` on a
malformed instance). -/
theorem C8_instance_resolution_unchecked (sim : SimulatorImpl)
    (env : Environment) (s : State) (ai : ActionInstance) (m : String)
    (et : Bool) :
    handle_parameters_polymorphism env (.actionInstance ai) none m =
      .ok (ai.action, ai.actual_parameters) ∧
    get_unsatisfied_conditions sim env s (.actionInstance ai) none et =
      sim.getUnsatisfiedConditionsImpl s ai.action ai.actual_parameters et ∧
    apply_unsafe_method sim env s (.actionInstance ai) none =
      sim.applyUnsafeImpl s ai.action ai.actual_parameters :=
  ⟨rfl, rfl, rfl⟩

/-- Claim C9: constructing the simulator with a problem whose kind the engine
class does not support raises `UPUsageError` when checks are enabled and
`error_on_failed_checks` is set, only warns (construction succeeds) when it
is not set, and succeeds silently when the kind is supported or checks are
skipped. -/
theorem C9_init_unsupported_kind (eng : InitFlags) (problem : AbstractProblem) :
    (eng.skip_checks = false → eng.supports problem.kind = false →
      (eng.error_on_failed_checks = true →
        sequential_simulator_init eng problem =
          .error (.usageError (unsupported_msg eng.name))) ∧
      (eng.error_on_failed_checks = false →
        sequential_simulator_init eng problem =
          .ok [unsupported_msg eng.name])) ∧
    (eng.skip_checks = true ∨ eng.supports problem.kind = true →
      sequential_simulator_init eng problem = .ok []) := by
  unfold sequential_simulator_init
  constructor
  · intro h1 h2
    constructor <;> intro h3 <;> simp [h1, h2, h3]
  · rintro (h | h) <;> simp [h]

/-- A problem with an arbitrary kind, for the constructor witnesses. -/
def prob0 : AbstractProblem := ⟨⟨0⟩⟩

/-- Engine flags for the constructor witnesses. -/
def flags (sk er : Bool) : InitFlags := ⟨"sim", sk, er, fun _ => false⟩

/-- Witness for C9: the three constructor outcomes at concrete flags. -/
theorem C9_witness :
    sequential_simulator_init (flags false true) prob0 =
      .error (.usageError (unsupported_msg "sim")) ∧
    sequential_simulator_init (flags false false) prob0 =
      .ok [unsupported_msg "sim"] ∧
    sequential_simulator_init (flags true true) prob0 = .ok [] :=
  ⟨((C9_init_unsupported_kind (flags false true) prob0).1 rfl rfl).1 rfl,
   ((C9_init_unsupported_kind (flags false false) prob0).1 rfl rfl).2 rfl,
   (C9_init_unsupported_kind (flags true true) prob0).2 (Or.inl rfl)⟩

/-- Claim C10: for an action schema, `parameters=None` is normalized exactly
like the empty sequence, and a single non-sequence parameter exactly like the
singleton sequence containing it, both in the grounding resolution and in the
downstream result of every public method. -/
theorem C10_parameter_argument_normalization (sim : SimulatorImpl)
    (env : Environment) (s : State) (act : Action) (e : Expression)
    (et : Bool) (m : String) :
    (handle_parameters_polymorphism env (.action act) none m =
      handle_parameters_polymorphism env (.action act) (some (.seq [])) m ∧
     handle_parameters_polymorphism env (.action act) (some (.single e)) m =
      handle_parameters_polymorphism env (.action act) (some (.seq [e])) m) ∧
    (is_applicable sim env s (.action act) none =
      is_applicable sim env s (.action act) (some (.seq [])) ∧
     is_applicable sim env s (.action act) (some (.single e)) =
      is_applicable sim env s (.action act) (some (.seq [e]))) ∧
    (get_unsatisfied_conditions sim env s (.action act) none et =
      get_unsatisfied_conditions sim env s (.action act) (some (.seq [])) et ∧
     get_unsatisfied_conditions sim env s (.action act) (some (.single e)) et =
      get_unsatisfied_conditions sim env s (.action act) (some (.seq [e])) et) ∧
    (apply sim env s (.action act) none =
      apply sim env s (.action act) (some (.seq [])) ∧
     apply sim env s (.action act) (some (.single e)) =
      apply sim env s (.action act) (some (.seq [e]))) ∧
    (apply_unsafe_method sim env s (.action act) none =
      apply_unsafe_method sim env s (.action act) (some (.seq [])) ∧
     apply_unsafe_method sim env s (.action act) (some (.single e)) =
      apply_unsafe_method sim env s (.action act) (some (.seq [e]))) :=
  ⟨⟨rfl, rfl⟩, ⟨rfl, rfl⟩, ⟨rfl, rfl⟩, ⟨rfl, rfl⟩, ⟨rfl, rfl⟩⟩

end UP
